import Mathlib

/-!
Verification of the QuickBooks Node.js glue service against its
natural-language specification.

The embedding translates the Express handlers of `src/index.js`,
`src/routes/invoiceRoutes.js` and `src/unnamed/part_000` into pure Lean
functions.  Upstream QuickBooks SDK calls (customer search/create, item
search, invoice create, invoice list) are modelled by an oracle record
whose fields give each call's outcome; every handler returns the HTTP
response it sends together with the ordered trace of upstream calls it
issued, so that claims of the form "no customer-create call occurs" are
statements about the trace.
-/

namespace QB

/-- JSON-like values, used for response bodies and for opaque upstream
objects that the handlers pass through unmodified. -/
inductive Js where
  | str : String → Js
  | num : ℚ → Js
  | bool : Bool → Js
  | null : Js
  | arr : List Js → Js
  | obj : List (String × Js) → Js

/-- A JavaScript `Error`-like object as the handlers observe it:
`message` is read for the 500 bodies; `statusCode` records the HTTP
status of an upstream failure (never read by the code under
verification); `authResponseStatus` models `error.authResponse?.status`,
read only by the catch handler of `GET /api/invoices`. -/
structure JsError where
  message : String
  statusCode : Option Nat
  authResponseStatus : Option Nat

/-- Upstream error delivered through a node-quickbooks callback `(err, data)`.
The handlers only ever read `err.message` from it. -/
structure QbErr where
  message : String
deriving DecidableEq

/-- A QuickBooks customer object.  The code reads only `customer.Id`;
`rest` stands for all remaining fields, so that "reused unmodified" is a
meaningful statement. -/
structure Customer where
  Id : String
  rest : Js

/-- A QuickBooks catalog item.  The code reads `qboItem.Id` and
`qboItem.Name`. -/
structure Item where
  Id : String
  Name : String
deriving DecidableEq

/-- An address object as assembled in `invoiceRoutes.js` (`BillAddr` /
`ShipAddr` literals). -/
structure Addr where
  Line1 : String
  City : String
  CountrySubDivisionCode : String
  PostalCode : String
deriving DecidableEq

/-- The customer-create payload built in `findOrCreateCustomer`
(invoiceRoutes.js lines 44-60).  `PrimaryEmailAddr_Address` embeds the
nested `PrimaryEmailAddr.Address` field. -/
structure NewCustomer where
  CompanyName : String
  DisplayName : String
  PrimaryEmailAddr_Address : String
  BillAddr : Addr
  ShipAddr : Addr
deriving DecidableEq

/-- One entry of the request body's `lineItems` array.  All fields arrive
as strings (the code parses `quantity`, `unitPrice`, `totalAmount`). -/
structure LineItemReq where
  sku : String
  description : String
  quantity : String
  unitPrice : String
  totalAmount : String
deriving DecidableEq

/-- The JSON request body of `POST /api/invoices/create`, with the fields
the handler reads. -/
structure RequestBody where
  company : String
  email : String
  billingAddress : String
  billingTown : String
  billingState : String
  billingZipCode : String
  shippingAddress : String
  shippingTown : String
  shippingState : String
  shippingZipCode : String
  shippingDate : String
  lineItems : List LineItemReq
deriving DecidableEq

/-- The `SalesItemLineDetail` object of an assembled invoice line
(invoiceRoutes.js lines 157-164).  `ItemRef_value` / `ItemRef_name` embed
the nested `ItemRef` object.  `Qty` and `UnitPrice` are `Option`-valued:
`none` models the JavaScript `NaN` produced by `parseInt` / `parseFloat`
on non-numeric input. -/
structure LineDetail where
  ItemRef_value : String
  ItemRef_name : String
  Qty : Option Int
  UnitPrice : Option ℚ
deriving DecidableEq

/-- One assembled invoice line (invoiceRoutes.js lines 153-165). -/
structure InvoiceLine where
  Amount : Option ℚ
  DetailType : String
  Description : String
  SalesItemLineDetail : LineDetail
deriving DecidableEq

/-- The invoice-create payload built in invoiceRoutes.js lines 170-191.
`CustomerRef_value` and `BillEmail_Address` embed the nested
single-field objects. -/
structure InvoiceData where
  CustomerRef_value : String
  BillEmail_Address : String
  ShipDate : String
  Line : List InvoiceLine
  BillAddr : Addr
  ShipAddr : Addr
deriving DecidableEq

/-- An upstream accounting-API call issued by a handler, with its payload. -/
inductive Call where
  | findCustomers (companyName : String)
  | createCustomer (payload : NewCustomer)
  | findItems (sku : String)
  | createInvoice (payload : InvoiceData)
  | findInvoices
deriving DecidableEq

/-- An HTTP response: either a status code with a JSON body, or a redirect. -/
inductive Response where
  | status (code : Nat) (body : Js)
  | redirect (location : String)

/-- Outcomes of the upstream QuickBooks calls that the invoice-create
handler can issue.  `findCustomersR c` models
`customers?.QueryResponse?.Customer` for the company-name search on `c`
(`none` when any level of the nesting is absent); `findItemsR sku`
likewise models `items?.QueryResponse?.Item` for the SKU search.
`createInvoiceR` yields the upstream invoice object, opaque JSON. -/
structure Qbo where
  findCustomersR : String → Except QbErr (Option (List Customer))
  createCustomerR : NewCustomer → Except QbErr Customer
  findItemsR : String → Except QbErr (Option (List Item))
  createInvoiceR : InvoiceData → Except QbErr Js

/-- Numeric value of a list of decimal digit characters. -/
def digitsToNat (l : List Char) : Nat :=
  l.foldl (fun a c => a * 10 + (c.toNat - 48)) 0

/-- Models JavaScript `parseInt` on base-10 input: an optional sign
followed by the longest prefix of decimal digits; `none` models `NaN`
(no digits at all). -/
def jsParseInt (s : String) : Option Int :=
  let cs := s.toList
  let signed : Int × List Char :=
    match cs with
    | '-' :: t => (-1, t)
    | '+' :: t => (1, t)
    | _ => (1, cs)
  let ds := signed.2.takeWhile Char.isDigit
  if ds.isEmpty then none else some (signed.1 * (digitsToNat ds : Int))

/-- Models JavaScript `parseFloat` on plain decimal input: an optional
sign, an integer part and an optional fractional part; `none` models
`NaN` (no digits at all).  Exponent forms never occur in the verified
flows and are not modelled. -/
def jsParseFloat (s : String) : Option ℚ :=
  let cs := s.toList
  let signed : Int × List Char :=
    match cs with
    | '-' :: t => (-1, t)
    | '+' :: t => (1, t)
    | _ => (1, cs)
  let intPart := signed.2.takeWhile Char.isDigit
  let rest := signed.2.dropWhile Char.isDigit
  match rest with
  | '.' :: t =>
    let fracPart := t.takeWhile Char.isDigit
    if intPart.isEmpty && fracPart.isEmpty then none
    else some (mkRat
      (signed.1 * (digitsToNat intPart * 10 ^ fracPart.length + digitsToNat fracPart : Nat))
      (10 ^ fracPart.length))
  | _ => if intPart.isEmpty then none else some (mkRat (signed.1 * (digitsToNat intPart : Int)) 1)

/-- The customer-create payload of invoiceRoutes.js lines 44-60: company
name doubles as display name; email and billing/shipping fields come
from the request body. -/
def mkNewCustomer (customerData : RequestBody) : NewCustomer :=
  { CompanyName := customerData.company
    DisplayName := customerData.company
    PrimaryEmailAddr_Address := customerData.email
    BillAddr :=
      { Line1 := customerData.billingAddress
        City := customerData.billingTown
        CountrySubDivisionCode := customerData.billingState
        PostalCode := customerData.billingZipCode }
    ShipAddr :=
      { Line1 := customerData.shippingAddress
        City := customerData.shippingTown
        CountrySubDivisionCode := customerData.shippingState
        PostalCode := customerData.shippingZipCode } }

/-- Embeds `findOrCreateCustomer` (invoiceRoutes.js lines 26-70): search
customers by company name; if the search yields at least one customer,
resolve the first one unmodified; otherwise create a new customer from
the request body.  Returns the promise outcome and the trace of upstream
calls. -/
def findOrCreateCustomer (qbo : Qbo) (customerData : RequestBody) :
    Except QbErr Customer × List Call :=
  match qbo.findCustomersR customerData.company with
  | .error e => (.error e, [.findCustomers customerData.company])
  | .ok res =>
    match res with
    | some (c :: _) => (.ok c, [.findCustomers customerData.company])
    | _ =>
      let newCustomer := mkNewCustomer customerData
      match qbo.createCustomerR newCustomer with
      | .error e =>
        (.error e, [.findCustomers customerData.company, .createCustomer newCustomer])
      | .ok c =>
        (.ok c, [.findCustomers customerData.company, .createCustomer newCustomer])

/-- Embeds `findItem` (invoiceRoutes.js lines 73-87): search items by SKU
with an exact-match query; resolve the first item of the response when
the `Item` array is present (`Item[0]` of an empty array is `undefined`,
i.e. `none`), and `null` (`none`) when it is absent. -/
def findItem (qbo : Qbo) (sku : String) : Except QbErr (Option Item) × List Call :=
  match qbo.findItemsR sku with
  | .error e => (.error e, [.findItems sku])
  | .ok res =>
    match res with
    | some items => (.ok items.head?, [.findItems sku])
    | none => (.ok none, [.findItems sku])

/-- One invoice line as assembled in invoiceRoutes.js lines 153-165 from
a request line item and the catalog item its SKU resolved to. -/
def mkInvoiceLine (item : LineItemReq) (qboItem : Item) : InvoiceLine :=
  { Amount := jsParseFloat item.totalAmount
    DetailType := "SalesItemLineDetail"
    Description := item.description
    SalesItemLineDetail :=
      { ItemRef_value := qboItem.Id
        ItemRef_name := qboItem.Name
        Qty := jsParseInt item.quantity
        UnitPrice := jsParseFloat item.unitPrice } }

/-- The body of the async mapper in invoiceRoutes.js lines 145-166: look
up the SKU; reject with `Item with SKU ... not found` when it resolves to
nothing; otherwise build the invoice line. -/
def resolveLineItem (qbo : Qbo) (item : LineItemReq) :
    Except QbErr InvoiceLine × List Call :=
  match findItem qbo item.sku with
  | (.error e, t) => (.error e, t)
  | (.ok none, t) => (.error ⟨"Item with SKU " ++ item.sku ++ " not found"⟩, t)
  | (.ok (some qboItem), t) => (.ok (mkInvoiceLine item qboItem), t)

/-- Embeds `Promise.all(req.body.lineItems.map(...))` (invoiceRoutes.js
lines 144-167).  The map starts every lookup, so each line item
contributes its lookup call to the trace regardless of other failures;
the combined promise rejects with the first rejection (taken here in
array order, the deterministic rendering of the settlement order) and
resolves with the list of assembled lines otherwise. -/
def resolveLineItems (qbo : Qbo) : List LineItemReq → Except QbErr (List InvoiceLine) × List Call
  | [] => (.ok [], [])
  | item :: rest =>
    let r := resolveLineItem qbo item
    let rs := resolveLineItems qbo rest
    let combined : Except QbErr (List InvoiceLine) :=
      match r.1, rs.1 with
      | .error e, _ => .error e
      | .ok _, .error e => .error e
      | .ok l, .ok ls => .ok (l :: ls)
    (combined, r.2 ++ rs.2)

/-- The invoice payload of invoiceRoutes.js lines 170-191. -/
def mkInvoiceData (body : RequestBody) (customer : Customer)
    (lineItems : List InvoiceLine) : InvoiceData :=
  { CustomerRef_value := customer.Id
    BillEmail_Address := body.email
    ShipDate := body.shippingDate
    Line := lineItems
    BillAddr :=
      { Line1 := body.billingAddress
        City := body.billingTown
        CountrySubDivisionCode := body.billingState
        PostalCode := body.billingZipCode }
    ShipAddr :=
      { Line1 := body.shippingAddress
        City := body.shippingTown
        CountrySubDivisionCode := body.shippingState
        PostalCode := body.shippingZipCode } }

/-- The 401 body of invoiceRoutes.js lines 131-134. -/
def authRequiredBody : Js :=
  .obj [("error", .str "Authentication required"),
        ("message", .str "Please visit /auth endpoint to authenticate with QuickBooks")]

/-- The 500 body shared by the catch handler (lines 211-214) and the
createInvoice error callback (lines 197-199) of invoiceRoutes.js. -/
def createFailBody (details : String) : Js :=
  .obj [("error", .str "Failed to create invoice"), ("details", .str details)]

/-- The 201 body of invoiceRoutes.js lines 203-207, wrapping the upstream
invoice object. -/
def createdBody (invoice : Js) : Js :=
  .obj [("success", .bool true),
        ("message", .str "Invoice created successfully"),
        ("invoice", invoice)]

/-- Embeds `POST /api/invoices/create` (invoiceRoutes.js lines 120-216):
token check, customer find-or-create, line-item resolution, invoice
assembly and the create call.  A rejection anywhere lands in the catch
handler's 500; the createInvoice error callback produces the same body
shape.  Returns the response and the trace of upstream calls. -/
def createInvoiceHandler (tokenValid : Bool) (qbo : Qbo) (body : RequestBody) :
    Response × List Call :=
  if !tokenValid then
    (.status 401 authRequiredBody, [])
  else
    let fc := findOrCreateCustomer qbo body
    match fc.1 with
    | .error e => (.status 500 (createFailBody e.message), fc.2)
    | .ok customer =>
      let rl := resolveLineItems qbo body.lineItems
      match rl.1 with
      | .error e => (.status 500 (createFailBody e.message), fc.2 ++ rl.2)
      | .ok lineItems =>
        let invoiceData := mkInvoiceData body customer lineItems
        match qbo.createInvoiceR invoiceData with
        | .error e =>
          (.status 500 (createFailBody e.message), fc.2 ++ rl.2 ++ [.createInvoice invoiceData])
        | .ok invoice =>
          (.status 201 (createdBody invoice), fc.2 ++ rl.2 ++ [.createInvoice invoiceData])

/-- How the upstream part of `GET /api/invoices` turns out: the
`findInvoices` call completes with data or with a callback error, or the
handler body throws before the callback fires (the only way to reach the
catch handler, since the callback itself never throws). -/
inductive ListUpstream where
  | ok (invoices : Js)
  | err (e : JsError)
  | thrown (e : JsError)

/-- The generic 500 body of the `GET /api/invoices` handler, used both by
the findInvoices error callback and by the catch handler. -/
def fetchFailBody : Js := .obj [("error", .str "Failed to fetch invoices")]

/-- Embeds `GET /api/invoices` (identical in src/index.js lines 115-189
and src/unnamed/part_000 lines 82-155): redirect to `/auth` when the
token is invalid; otherwise issue `findInvoices`.  The error callback
always answers 500 with the generic body, whatever the error; the catch
handler redirects to `/auth` only when the thrown error carries
`authResponse.status === 401`, and answers the generic 500 otherwise. -/
def listInvoicesHandler (tokenValid : Bool) (upstream : ListUpstream) :
    Response × List Call :=
  if !tokenValid then
    (.redirect "/auth", [])
  else
    match upstream with
    | .thrown e =>
      if e.authResponseStatus = some 401 then (.redirect "/auth", [])
      else (.status 500 fetchFailBody, [])
    | .err _ => (.status 500 fetchFailBody, [.findInvoices])
    | .ok invoices => (.status 200 invoices, [.findInvoices])

/-- The OAuth token record handed to `oauthClient.setToken`.  The
handlers read only `realmId` from it; `rest` stands for the remaining
fields. -/
structure Token where
  realmId : String
  rest : Js

/-- Embeds `GET /callback` of src/index.js lines 78-113: exchange the
callback URL for a token; on success store it and answer 200; on an
exchange error answer 500 with the error message, leaving the stored
token as it was.  The pair returned is the response and the token record
held by the OAuth client afterwards. -/
def callbackHandlerMain (stored : Option Token) (exchange : Except JsError Token) :
    Response × Option Token :=
  match exchange with
  | .ok tok =>
    (.status 200 (.obj [("success", .bool true),
       ("message", .str "Authentication successful"),
       ("realmId", .str tok.realmId)]), some tok)
  | .error e =>
    (.status 500 (.obj [("error", .str "Authentication failed"),
       ("details", .str e.message)]), stored)

/-- Embeds `GET /callback` of src/unnamed/part_000 lines 48-79, the
deployment variant that redirects to the invoice list on success and
answers a bare 500 body on an exchange error, again leaving the stored
token unchanged on the error path. -/
def callbackHandlerVariant (stored : Option Token) (exchange : Except JsError Token) :
    Response × Option Token :=
  match exchange with
  | .ok tok => (.redirect "/api/invoices", some tok)
  | .error _ =>
    (.status 500 (.obj [("error", .str "Authentication failed")]), stored)

/-! ### Concrete inputs used to exercise the handlers -/

/-- Catalog item "A1" with id "99", as in the spec's worked example. -/
def c6Item : Item := ⟨"99", "Widget"⟩

/-- An existing customer returned by the company-name search. -/
def c6Customer : Customer := ⟨"7", .null⟩

/-- The worked example's single line item. -/
def c6LineItem : LineItemReq :=
  { sku := "A1", description := "Sample item", quantity := "2"
    unitPrice := "10.00", totalAmount := "20.00" }

/-- A request body carrying the worked example's line item. -/
def c6Body : RequestBody :=
  { company := "Acme", email := "billing@acme.test"
    billingAddress := "1 Main St", billingTown := "Springfield"
    billingState := "IL", billingZipCode := "62701"
    shippingAddress := "2 Oak Ave", shippingTown := "Shelbyville"
    shippingState := "IL", shippingZipCode := "62702"
    shippingDate := "2025-01-01", lineItems := [c6LineItem] }

/-- An upstream in which the customer exists, SKU "A1" resolves to item
"99", and invoice creation succeeds. -/
def c6Qbo : Qbo :=
  { findCustomersR := fun _ => .ok (some [c6Customer])
    createCustomerR := fun _ => .error ⟨"not reached"⟩
    findItemsR := fun sku => if sku = "A1" then .ok (some [c6Item]) else .ok none
    createInvoiceR := fun _ => .ok .null }

/-- The invoice line the worked example should assemble. -/
def c6Line : InvoiceLine := mkInvoiceLine c6LineItem c6Item

/-- A line item whose SKU has no catalog match. -/
def w1LineItem : LineItemReq :=
  { sku := "B2", description := "Missing thing", quantity := "1"
    unitPrice := "5.00", totalAmount := "5.00" }

/-- A request body submitting only the unmatchable line item. -/
def w1Body : RequestBody :=
  { company := "Initech", email := "ap@initech.test"
    billingAddress := "10 Elm St", billingTown := "Ogdenville"
    billingState := "NT", billingZipCode := "11111"
    shippingAddress := "11 Elm St", shippingTown := "Ogdenville"
    shippingState := "NT", shippingZipCode := "11112"
    shippingDate := "2025-02-02", lineItems := [w1LineItem] }

/-- An existing customer for the missing-SKU scenario. -/
def w1Customer : Customer := ⟨"3", .null⟩

/-- An upstream in which the customer exists but no SKU ever matches. -/
def w1Qbo : Qbo :=
  { findCustomersR := fun _ => .ok (some [w1Customer])
    createCustomerR := fun _ => .error ⟨"not reached"⟩
    findItemsR := fun _ => .ok none
    createInvoiceR := fun _ => .ok .null }

/-- The customer created for the rollback scenario of claim C8. -/
def w8Customer : Customer := ⟨"41", .null⟩

/-- An upstream in which the customer search finds nothing, customer
creation succeeds, and no SKU ever matches. -/
def w8Qbo : Qbo :=
  { findCustomersR := fun _ => .ok none
    createCustomerR := fun _ => .ok w8Customer
    findItemsR := fun _ => .ok none
    createInvoiceR := fun _ => .ok .null }

/-- An existing customer for the success-envelope scenario. -/
def w7Customer : Customer := ⟨"12", .null⟩

/-- A request body with no line items (also the claim C10 scenario). -/
def w7Body : RequestBody :=
  { company := "Globex", email := "ap@globex.test"
    billingAddress := "5 High St", billingTown := "Capital City"
    billingState := "CA", billingZipCode := "90001"
    shippingAddress := "6 High St", shippingTown := "Capital City"
    shippingState := "CA", shippingZipCode := "90002"
    shippingDate := "2025-03-03", lineItems := [] }

/-- An upstream in which the customer exists and invoice creation
succeeds with an opaque invoice object. -/
def w7Qbo : Qbo :=
  { findCustomersR := fun _ => .ok (some [w7Customer])
    createCustomerR := fun _ => .error ⟨"not reached"⟩
    findItemsR := fun _ => .ok none
    createInvoiceR := fun _ => .ok (.str "INV-1") }

/-- Is this call a customer-create call? -/
def isCreateCustomerCall : Call → Bool
  | .createCustomer _ => true
  | _ => false

/-! ### Trace-shape lemmas -/

/-- The SKU lookup issues exactly its one search call. -/
theorem findItem_trace (qbo : Qbo) (sku : String) :
    (findItem qbo sku).2 = [Call.findItems sku] := by
  rcases h : qbo.findItemsR sku with e | res
  · simp [findItem, h]
  · rcases res with _ | items <;> simp [findItem, h]

/-- Resolving one line item issues exactly its SKU search call. -/
theorem resolveLineItem_trace (qbo : Qbo) (item : LineItemReq) :
    (resolveLineItem qbo item).2 = [Call.findItems item.sku] := by
  have ht := findItem_trace qbo item.sku
  rcases h : findItem qbo item.sku with ⟨r, t⟩
  rw [h] at ht
  subst ht
  rcases r with e | o
  · simp [resolveLineItem, h]
  · rcases o with _ | it <;> simp [resolveLineItem, h]

/-- The line-item phase issues exactly one SKU search per submitted line
item, in order, whatever the outcomes. -/
theorem resolveLineItems_trace (qbo : Qbo) (items : List LineItemReq) :
    (resolveLineItems qbo items).2 = items.map fun i => Call.findItems i.sku := by
  induction items with
  | nil => rfl
  | cons item rest ih =>
    simp [resolveLineItems, resolveLineItem_trace, ih]

/-- The customer phase issues either just the search call, or the search
call followed by one create call with the payload built from the body. -/
theorem findOrCreateCustomer_trace (qbo : Qbo) (body : RequestBody) :
    (findOrCreateCustomer qbo body).2 = [Call.findCustomers body.company] ∨
    (findOrCreateCustomer qbo body).2 =
      [Call.findCustomers body.company, Call.createCustomer (mkNewCustomer body)] := by
  rcases h : qbo.findCustomersR body.company with e | res
  · left; simp [findOrCreateCustomer, h]
  · rcases res with _ | ls
    · rcases h2 : qbo.createCustomerR (mkNewCustomer body) with e | c <;>
        right <;> simp [findOrCreateCustomer, h, h2]
    · rcases ls with _ | ⟨c0, cs⟩
      · rcases h2 : qbo.createCustomerR (mkNewCustomer body) with e | c <;>
          right <;> simp [findOrCreateCustomer, h, h2]
      · left; simp [findOrCreateCustomer, h]

/-- When the customer search comes back with at least one customer, the
helper resolves the first one unmodified and issues only the search call. -/
theorem findOrCreateCustomer_found (qbo : Qbo) (body : RequestBody)
    (c : Customer) (cs : List Customer)
    (hfound : qbo.findCustomersR body.company = .ok (some (c :: cs))) :
    findOrCreateCustomer qbo body = (.ok c, [Call.findCustomers body.company]) := by
  simp [findOrCreateCustomer, hfound]

/-- When the customer search comes back empty, the helper issues the
create call with the payload built from the body and passes on its
outcome. -/
theorem findOrCreateCustomer_absent (qbo : Qbo) (body : RequestBody)
    (hnone : qbo.findCustomersR body.company = .ok none ∨
      qbo.findCustomersR body.company = .ok (some [])) :
    findOrCreateCustomer qbo body =
      (qbo.createCustomerR (mkNewCustomer body),
       [Call.findCustomers body.company, Call.createCustomer (mkNewCustomer body)]) := by
  rcases hnone with h | h <;>
    rcases h2 : qbo.createCustomerR (mkNewCustomer body) with e | c <;>
    simp [findOrCreateCustomer, h, h2]

/-- If every SKU search completes without an upstream error but some line
item's SKU resolves to nothing, the line-item phase rejects with the
not-found message of the first such line item. -/
theorem resolveLineItems_first_miss (qbo : Qbo) :
    ∀ items : List LineItemReq,
      (∀ i ∈ items, ∃ r, (findItem qbo i.sku).1 = .ok r) →
      (∃ i ∈ items, (findItem qbo i.sku).1 = .ok none) →
      ∃ i ∈ items, (findItem qbo i.sku).1 = .ok none ∧
        (resolveLineItems qbo items).1 =
          .error ⟨"Item with SKU " ++ i.sku ++ " not found"⟩ := by
  intro items
  induction items with
  | nil => rintro _ ⟨i, hi, _⟩; exact absurd hi (List.not_mem_nil i)
  | cons item rest ih =>
    intro hok hmiss
    rcases h : (findItem qbo item.sku).1 with e | o
    · obtain ⟨r, hr⟩ := hok item (List.mem_cons_self item rest)
      rw [h] at hr
      exact absurd hr (by simp)
    · rcases o with _ | it
      · refine ⟨item, List.mem_cons_self item rest, h, ?_⟩
        simp [resolveLineItems, resolveLineItem, h]
        rcases h2 : findItem qbo item.sku with ⟨r, t⟩
        rw [h2] at h
        simp at h
        subst h
        simp [resolveLineItem, h2]
      · have hmiss' : ∃ i ∈ rest, (findItem qbo i.sku).1 = .ok none := by
          rcases hmiss with ⟨i, hi, hni⟩
          rcases List.mem_cons.mp hi with rfl | hi'
          · rw [h] at hni; exact absurd hni (by simp)
          · exact ⟨i, hi', hni⟩
        have hok' : ∀ i ∈ rest, ∃ r, (findItem qbo i.sku).1 = .ok r :=
          fun i hi => hok i (List.mem_cons_of_mem item hi)
        obtain ⟨i, hi, hni, herr⟩ := ih hok' hmiss'
        refine ⟨i, List.mem_cons_of_mem item hi, hni, ?_⟩
        rcases h2 : findItem qbo item.sku with ⟨r, t⟩
        rw [h2] at h
        simp at h
        subst h
        simp [resolveLineItems, resolveLineItem, h2, herr]

/-- If some line item's SKU resolves to nothing, the line-item phase
never resolves successfully. -/
theorem resolveLineItems_miss_not_ok (qbo : Qbo) :
    ∀ items : List LineItemReq,
      (∃ i ∈ items, (findItem qbo i.sku).1 = .ok none) →
      ∀ ls, (resolveLineItems qbo items).1 ≠ .ok ls := by
  intro items
  induction items with
  | nil => rintro ⟨i, hi, _⟩; exact absurd hi (List.not_mem_nil i)
  | cons item rest ih =>
    rintro ⟨i, hi, hni⟩ ls hls
    rcases h2 : findItem qbo item.sku with ⟨r, t⟩
    rcases List.mem_cons.mp hi with rfl | hi'
    · rw [h2] at hni
      simp at hni
      subst hni
      simp [resolveLineItems, resolveLineItem, h2] at hls
    · rcases r with e | o
      · simp [resolveLineItems, resolveLineItem, h2] at hls
      · rcases o with _ | it
        · simp [resolveLineItems, resolveLineItem, h2] at hls
        · rcases h3 : (resolveLineItems qbo rest).1 with e | ls'
          · simp [resolveLineItems, resolveLineItem, h2, h3] at hls
          · exact ih ⟨i, hi', hni⟩ ls' h3

/-! ### Claims -/

/-- C4: with an invalid or absent stored token, `POST /api/invoices/create`
answers 401 with the JSON error body and issues no upstream calls, and
`GET /api/invoices` answers a redirect to `/auth` and issues no upstream
calls, whatever the request body and whatever the upstream would have
done. -/
theorem claim4_invalid_token_no_upstream_calls (qbo : Qbo) (body : RequestBody)
    (upstream : ListUpstream) :
    createInvoiceHandler false qbo body = (.status 401 authRequiredBody, []) ∧
    listInvoicesHandler false upstream = (.redirect "/auth", []) :=
  ⟨rfl, rfl⟩

/-- C9: for `GET /callback`, in both deployment variants, an exchange
error yields a 500 response and leaves the stored token record exactly
as it was, while only a successful exchange overwrites it. -/
theorem claim9_callback_error_leaves_token (stored : Option Token) (e : JsError)
    (tok : Token) :
    ((callbackHandlerMain stored (.error e)).2 = stored ∧
     (callbackHandlerMain stored (.error e)).1 =
       .status 500 (.obj [("error", .str "Authentication failed"),
         ("details", .str e.message)])) ∧
    ((callbackHandlerVariant stored (.error e)).2 = stored ∧
     (callbackHandlerVariant stored (.error e)).1 =
       .status 500 (.obj [("error", .str "Authentication failed")])) ∧
    ((callbackHandlerMain stored (.ok tok)).2 = some tok ∧
     (callbackHandlerVariant stored (.ok tok)).2 = some tok) :=
  ⟨⟨rfl, rfl⟩, ⟨rfl, rfl⟩, ⟨rfl, rfl⟩⟩

/-- C5 counterexample: a `GET /api/invoices` request with a valid token
whose upstream list-invoices call fails with a 401 is answered with the
generic 500 body, not with a redirect to `/auth`: the findInvoices error
callback never inspects the error's status. -/
theorem claim5_counterexample :
    (listInvoicesHandler true (.err ⟨"Unauthorized", some 401, none⟩)).1 =
      .status 500 fetchFailBody ∧
    (listInvoicesHandler true (.err ⟨"Unauthorized", some 401, none⟩)).1 ≠
      .redirect "/auth" := by
  refine ⟨rfl, fun h => ?_⟩
  have h2 : Response.status 500 fetchFailBody = Response.redirect "/auth" := h
  exact Response.noConfusion h2

/-- C5 amended: with a valid token, every failure of the upstream
list-invoices call (it is reported through the findInvoices callback) is
answered 500 with the generic body, which is independent of the error
and so carries no upstream detail — including failures whose HTTP status
is 401; a redirect to `/auth` happens only when an exception thrown in
the handler body, outside the callback, carries
`authResponse.status = 401`, and any other thrown exception again yields
the generic 500. -/
theorem claim5_amended_upstream_failures (e : JsError) :
    (listInvoicesHandler true (.err e)).1 = .status 500 fetchFailBody ∧
    (e.authResponseStatus = some 401 →
      (listInvoicesHandler true (.thrown e)).1 = .redirect "/auth") ∧
    (e.authResponseStatus ≠ some 401 →
      (listInvoicesHandler true (.thrown e)).1 = .status 500 fetchFailBody) := by
  refine ⟨rfl, fun h => ?_, fun h => ?_⟩
  · simp [listInvoicesHandler, h]
  · simp [listInvoicesHandler, h]

/-- Witness for the amended C5 at concrete errors: a callback failure
with status 401, a thrown error carrying authResponse status 401, and a
thrown error without one. -/
theorem claim5_amended_witness :
    ((listInvoicesHandler true (.err ⟨"Unauthorized", some 401, none⟩)).1 =
      .status 500 fetchFailBody) ∧
    ((listInvoicesHandler true (.thrown ⟨"expired", none, some 401⟩)).1 =
      .redirect "/auth") ∧
    ((listInvoicesHandler true (.thrown ⟨"boom", none, none⟩)).1 =
      .status 500 fetchFailBody) :=
  ⟨(claim5_amended_upstream_failures ⟨"Unauthorized", some 401, none⟩).1,
   (claim5_amended_upstream_failures ⟨"expired", none, some 401⟩).2.1 rfl,
   (claim5_amended_upstream_failures ⟨"boom", none, none⟩).2.2 (by simp)⟩

/-- C6: on the worked example — line item with sku "A1", quantity "2",
unit price "10.00", total "20.00", catalog item "A1" with id "99" — the
invoice payload handed to the upstream create call has exactly one line,
with integer-parsed `Qty = 2`, float-parsed `UnitPrice = 10`, and
`ItemRef.value = "99"`. -/
theorem claim6_line_item_assembly :
    ∃ d : InvoiceData, Call.createInvoice d ∈ (createInvoiceHandler true c6Qbo c6Body).2 ∧
      d.Line.map (fun l => (l.SalesItemLineDetail.Qty, l.SalesItemLineDetail.UnitPrice,
        l.SalesItemLineDetail.ItemRef_value)) = [(some 2, some 10, "99")] := by
  refine ⟨mkInvoiceData c6Body c6Customer [c6Line], ?_, ?_⟩
  · have h : (createInvoiceHandler true c6Qbo c6Body).2 =
        [Call.findCustomers "Acme", Call.findItems "A1",
         Call.createInvoice (mkInvoiceData c6Body c6Customer [c6Line])] := rfl
    rw [h]
    simp
  · rfl

/-- C7: whenever the customer phase and the line-item phase conclude and
the upstream invoice-create call answers with an invoice object, the
handler responds 201 with the body that wraps that object unmodified
under `success` / `message` / `invoice`. -/
theorem claim7_success_envelope (qbo : Qbo) (body : RequestBody) (c : Customer)
    (ls : List InvoiceLine) (inv : Js)
    (hc : (findOrCreateCustomer qbo body).1 = .ok c)
    (hl : (resolveLineItems qbo body.lineItems).1 = .ok ls)
    (hi : qbo.createInvoiceR (mkInvoiceData body c ls) = .ok inv) :
    (createInvoiceHandler true qbo body).1 =
      .status 201 (.obj [("success", .bool true),
        ("message", .str "Invoice created successfully"),
        ("invoice", inv)]) := by
  simp [createInvoiceHandler, hc, hl, hi, createdBody]

/-- Witness for C7 at a concrete upstream whose create call returns the
opaque invoice object "INV-1". -/
theorem claim7_success_envelope_witness :
    (createInvoiceHandler true w7Qbo w7Body).1 =
      .status 201 (.obj [("success", .bool true),
        ("message", .str "Invoice created successfully"),
        ("invoice", .str "INV-1")]) :=
  claim7_success_envelope w7Qbo w7Body w7Customer [] (.str "INV-1") rfl rfl rfl

/-- C10: with a valid token, an empty `lineItems` array and a customer
phase that concludes with customer `c`, the handler performs no SKU
lookup at all and still issues the invoice-create call, whose `Line`
list is empty. -/
theorem claim10_empty_line_items (qbo : Qbo) (body : RequestBody) (c : Customer)
    (hc : (findOrCreateCustomer qbo body).1 = .ok c)
    (hempty : body.lineItems = []) :
    Call.createInvoice (mkInvoiceData body c []) ∈ (createInvoiceHandler true qbo body).2 ∧
    (mkInvoiceData body c []).Line = [] ∧
    ∀ sku, Call.findItems sku ∉ (createInvoiceHandler true qbo body).2 := by
  have hrl : resolveLineItems qbo body.lineItems = (.ok [], []) := by rw [hempty]; rfl
  have hh : (createInvoiceHandler true qbo body).2 =
      (findOrCreateCustomer qbo body).2 ++ [Call.createInvoice (mkInvoiceData body c [])] := by
    rcases hci : qbo.createInvoiceR (mkInvoiceData body c []) with e | inv <;>
      simp [createInvoiceHandler, hc, hrl, hci]
  refine ⟨?_, rfl, ?_⟩
  · rw [hh]; simp
  · intro sku hsku
    rw [hh] at hsku
    simp only [List.mem_append] at hsku
    rcases hsku with h | h
    · rcases findOrCreateCustomer_trace qbo body with ht | ht <;> rw [ht] at h <;> simp at h
    · simp at h

/-- Witness for C10 at a concrete request with an empty `lineItems`
array and an existing customer. -/
theorem claim10_empty_line_items_witness :
    Call.createInvoice (mkInvoiceData w7Body w7Customer []) ∈
      (createInvoiceHandler true w7Qbo w7Body).2 ∧
    (mkInvoiceData w7Body w7Customer []).Line = [] ∧
    ∀ sku, Call.findItems sku ∉ (createInvoiceHandler true w7Qbo w7Body).2 :=
  claim10_empty_line_items w7Qbo w7Body w7Customer rfl rfl

/-- C1: with a valid token, when the customer phase concludes, every SKU
search completes without an upstream error, and some submitted line
item's SKU has no catalog match, the handler responds 500 with the error
message naming that missing SKU, and no invoice-create call appears in
the trace. -/
theorem claim1_missing_sku_aborts (qbo : Qbo) (body : RequestBody) (c : Customer)
    (hcust : (findOrCreateCustomer qbo body).1 = .ok c)
    (hnoerr : ∀ i ∈ body.lineItems, ∃ r, (findItem qbo i.sku).1 = .ok r)
    (hmiss : ∃ i ∈ body.lineItems, (findItem qbo i.sku).1 = .ok none) :
    (∃ i ∈ body.lineItems, (findItem qbo i.sku).1 = .ok none ∧
      (createInvoiceHandler true qbo body).1 =
        .status 500 (createFailBody ("Item with SKU " ++ i.sku ++ " not found"))) ∧
    ∀ d, Call.createInvoice d ∉ (createInvoiceHandler true qbo body).2 := by
  obtain ⟨i, hi, hni, herr⟩ := resolveLineItems_first_miss qbo body.lineItems hnoerr hmiss
  have hh : createInvoiceHandler true qbo body =
      (.status 500 (createFailBody ("Item with SKU " ++ i.sku ++ " not found")),
       (findOrCreateCustomer qbo body).2 ++ (resolveLineItems qbo body.lineItems).2) := by
    simp [createInvoiceHandler, hcust, herr]
  refine ⟨⟨i, hi, hni, by rw [hh]⟩, ?_⟩
  intro d hd
  rw [hh] at hd
  simp only [List.mem_append] at hd
  rcases hd with h | h
  · rcases findOrCreateCustomer_trace qbo body with ht | ht <;> rw [ht] at h <;> simp at h
  · rw [resolveLineItems_trace] at h
    simp at h

/-- Witness for C1: an existing customer, a single line item with SKU
"B2", and an upstream in which no SKU matches. -/
theorem claim1_missing_sku_aborts_witness :
    (∃ i ∈ w1Body.lineItems, (findItem w1Qbo i.sku).1 = .ok none ∧
      (createInvoiceHandler true w1Qbo w1Body).1 =
        .status 500 (createFailBody ("Item with SKU " ++ i.sku ++ " not found"))) ∧
    ∀ d, Call.createInvoice d ∉ (createInvoiceHandler true w1Qbo w1Body).2 :=
  claim1_missing_sku_aborts w1Qbo w1Body w1Customer rfl
    (fun i _ => ⟨none, rfl⟩) ⟨w1LineItem, by simp [w1Body], rfl⟩

/-- C2: with a valid token, when the company-name search returns at
least one customer, the helper resolves the first returned customer
unmodified, the handler issues no customer-create call, and any
invoice-create call it issues references that customer's id. -/
theorem claim2_existing_customer_reused (qbo : Qbo) (body : RequestBody)
    (c : Customer) (cs : List Customer)
    (hfound : qbo.findCustomersR body.company = .ok (some (c :: cs))) :
    (findOrCreateCustomer qbo body).1 = .ok c ∧
    (∀ p, Call.createCustomer p ∉ (createInvoiceHandler true qbo body).2) ∧
    ∀ d, Call.createInvoice d ∈ (createInvoiceHandler true qbo body).2 →
      d.CustomerRef_value = c.Id := by
  have hfc := findOrCreateCustomer_found qbo body c cs hfound
  have hfc1 : (findOrCreateCustomer qbo body).1 = .ok c := by rw [hfc]
  have key : (createInvoiceHandler true qbo body).2 =
      [Call.findCustomers body.company] ++ (resolveLineItems qbo body.lineItems).2 ∨
      ∃ ls, (createInvoiceHandler true qbo body).2 =
        [Call.findCustomers body.company] ++ (resolveLineItems qbo body.lineItems).2 ++
          [Call.createInvoice (mkInvoiceData body c ls)] := by
    rcases hrl : (resolveLineItems qbo body.lineItems).1 with e | ls
    · left
      simp [createInvoiceHandler, hfc, hrl]
    · right
      refine ⟨ls, ?_⟩
      rcases hci : qbo.createInvoiceR (mkInvoiceData body c ls) with e2 | inv <;>
        simp [createInvoiceHandler, hfc, hrl, hci]
  constructor
  · exact hfc1
  constructor
  · intro p hp
    rcases key with hk | ⟨ls, hk⟩ <;> rw [hk] at hp <;>
      simp only [List.mem_append, resolveLineItems_trace] at hp <;> simp at hp
  · intro d hd
    rcases key with hk | ⟨ls, hk⟩ <;> rw [hk] at hd <;>
      simp only [List.mem_append, resolveLineItems_trace] at hd
    · simp at hd
    · rcases hd with (h | h) | h
      · simp at h
      · simp at h
      · simp at h
        subst h
        rfl

/-- Witness for C2 at a concrete upstream whose search returns one
existing customer. -/
theorem claim2_existing_customer_reused_witness :
    (findOrCreateCustomer c6Qbo c6Body).1 = .ok c6Customer ∧
    (∀ p, Call.createCustomer p ∉ (createInvoiceHandler true c6Qbo c6Body).2) ∧
    ∀ d, Call.createInvoice d ∈ (createInvoiceHandler true c6Qbo c6Body).2 →
      d.CustomerRef_value = c6Customer.Id :=
  claim2_existing_customer_reused c6Qbo c6Body c6Customer [] rfl

/-- C3: with a valid token, when the company-name search returns no
customer, exactly one customer-create call occurs, and its payload
carries the request body's company name (also as display name), email,
and billing and shipping address fields. -/
theorem claim3_absent_customer_created_once (qbo : Qbo) (body : RequestBody)
    (hnone : qbo.findCustomersR body.company = .ok none ∨
      qbo.findCustomersR body.company = .ok (some [])) :
    ((createInvoiceHandler true qbo body).2.countP isCreateCustomerCall) = 1 ∧
    ∀ p, Call.createCustomer p ∈ (createInvoiceHandler true qbo body).2 →
      p.CompanyName = body.company ∧ p.DisplayName = body.company ∧
      p.PrimaryEmailAddr_Address = body.email ∧
      p.BillAddr = ⟨body.billingAddress, body.billingTown,
        body.billingState, body.billingZipCode⟩ ∧
      p.ShipAddr = ⟨body.shippingAddress, body.shippingTown,
        body.shippingState, body.shippingZipCode⟩ := by
  have hfc := findOrCreateCustomer_absent qbo body hnone
  have titems : ∀ call ∈ (resolveLineItems qbo body.lineItems).2,
      ∃ sku, call = Call.findItems sku := by
    intro call hcall
    rw [resolveLineItems_trace] at hcall
    simp at hcall
    obtain ⟨i, _, hceq⟩ := hcall
    exact ⟨i.sku, hceq.symm⟩
  have key : (∃ t2 : List Call, (createInvoiceHandler true qbo body).2 =
      [Call.findCustomers body.company, Call.createCustomer (mkNewCustomer body)] ++ t2 ∧
      ∀ call ∈ t2, ∃ sku, call = Call.findItems sku) ∨
      (∃ t2 : List Call, ∃ d : InvoiceData, (createInvoiceHandler true qbo body).2 =
        [Call.findCustomers body.company, Call.createCustomer (mkNewCustomer body)] ++
          t2 ++ [Call.createInvoice d] ∧
        ∀ call ∈ t2, ∃ sku, call = Call.findItems sku) := by
    rcases hcc : qbo.createCustomerR (mkNewCustomer body) with e | c
    · refine Or.inl ⟨[], ?_, by simp⟩
      simp [createInvoiceHandler, hfc, hcc]
    · rcases hrl : (resolveLineItems qbo body.lineItems).1 with e2 | ls
      · refine Or.inl ⟨(resolveLineItems qbo body.lineItems).2, ?_, titems⟩
        simp [createInvoiceHandler, hfc, hcc, hrl]
      · rcases hci : qbo.createInvoiceR (mkInvoiceData body c ls) with e3 | inv <;>
          refine Or.inr ⟨(resolveLineItems qbo body.lineItems).2,
            mkInvoiceData body c ls, ?_, titems⟩ <;>
          simp [createInvoiceHandler, hfc, hcc, hrl, hci]
  have count_part : ∀ t2 : List Call, (∀ call ∈ t2, ∃ sku, call = Call.findItems sku) →
      t2.countP isCreateCustomerCall = 0 := by
    intro t2 ht2
    rw [List.countP_eq_zero]
    intro call hcall
    obtain ⟨sku, rfl⟩ := ht2 call hcall
    simp [isCreateCustomerCall]
  have fields : ∀ p : NewCustomer, p = mkNewCustomer body →
      p.CompanyName = body.company ∧ p.DisplayName = body.company ∧
      p.PrimaryEmailAddr_Address = body.email ∧
      p.BillAddr = ⟨body.billingAddress, body.billingTown,
        body.billingState, body.billingZipCode⟩ ∧
      p.ShipAddr = ⟨body.shippingAddress, body.shippingTown,
        body.shippingState, body.shippingZipCode⟩ := by
    rintro p rfl
    refine ⟨rfl, rfl, rfl, rfl, rfl⟩
  rcases key with ⟨t2, ht, ht2⟩ | ⟨t2, d, ht, ht2⟩
  · constructor
    · rw [ht, List.countP_append, count_part t2 ht2]
      simp [isCreateCustomerCall]
    · intro p hp
      rw [ht] at hp
      simp only [List.mem_append] at hp
      rcases hp with h | h
      · simp at h
        exact fields p h
      · obtain ⟨sku, hsk⟩ := ht2 _ h
        exact absurd hsk (by simp)
  · constructor
    · rw [ht]
      rw [List.countP_append, List.countP_append, count_part t2 ht2]
      simp [isCreateCustomerCall]
    · intro p hp
      rw [ht] at hp
      simp only [List.mem_append] at hp
      rcases hp with (h | h) | h
      · simp at h
        exact fields p h
      · obtain ⟨sku, hsk⟩ := ht2 _ h
        exact absurd hsk (by simp)
      · simp at h

/-- Witness for C3 at a concrete upstream whose customer search finds
nothing. -/
theorem claim3_absent_customer_created_once_witness :
    ((createInvoiceHandler true w8Qbo w1Body).2.countP isCreateCustomerCall) = 1 ∧
    ∀ p, Call.createCustomer p ∈ (createInvoiceHandler true w8Qbo w1Body).2 →
      p.CompanyName = w1Body.company ∧ p.DisplayName = w1Body.company ∧
      p.PrimaryEmailAddr_Address = w1Body.email ∧
      p.BillAddr = ⟨w1Body.billingAddress, w1Body.billingTown,
        w1Body.billingState, w1Body.billingZipCode⟩ ∧
      p.ShipAddr = ⟨w1Body.shippingAddress, w1Body.shippingTown,
        w1Body.shippingState, w1Body.shippingZipCode⟩ :=
  claim3_absent_customer_created_once w8Qbo w1Body (Or.inl rfl)

/-- C8: with a valid token, when the customer search finds nothing, the
create call produces a new customer, every SKU search completes without
an upstream error and some submitted line item's SKU has no catalog
match, the handler's trace contains the one customer-create call and
otherwise only the search calls — no invoice-create call and no
compensating call of any kind — and the response is a 500. -/
theorem claim8_no_rollback_of_created_customer (qbo : Qbo) (body : RequestBody)
    (c : Customer)
    (hsearch : qbo.findCustomersR body.company = .ok none ∨
      qbo.findCustomersR body.company = .ok (some []))
    (hcreate : qbo.createCustomerR (mkNewCustomer body) = .ok c)
    (hnoerr : ∀ i ∈ body.lineItems, ∃ r, (findItem qbo i.sku).1 = .ok r)
    (hmiss : ∃ i ∈ body.lineItems, (findItem qbo i.sku).1 = .ok none) :
    Call.createCustomer (mkNewCustomer body) ∈ (createInvoiceHandler true qbo body).2 ∧
    (∀ d, Call.createInvoice d ∉ (createInvoiceHandler true qbo body).2) ∧
    (∀ call ∈ (createInvoiceHandler true qbo body).2,
      call = Call.findCustomers body.company ∨
      call = Call.createCustomer (mkNewCustomer body) ∨
      ∃ sku, call = Call.findItems sku) ∧
    ∃ b, (createInvoiceHandler true qbo body).1 = .status 500 b := by
  have hfc := findOrCreateCustomer_absent qbo body hsearch
  obtain ⟨i, hi, hni, herr⟩ := resolveLineItems_first_miss qbo body.lineItems hnoerr hmiss
  have hh : createInvoiceHandler true qbo body =
      (.status 500 (createFailBody ("Item with SKU " ++ i.sku ++ " not found")),
       [Call.findCustomers body.company, Call.createCustomer (mkNewCustomer body)] ++
         (resolveLineItems qbo body.lineItems).2) := by
    simp [createInvoiceHandler, hfc, hcreate, herr]
  rw [hh]
  refine ⟨by simp, ?_, ?_, ⟨_, rfl⟩⟩
  · intro d hd
    simp only [List.mem_append] at hd
    rcases hd with h | h
    · simp at h
    · rw [resolveLineItems_trace] at h
      simp at h
  · intro call hcall
    simp only [List.mem_append] at hcall
    rcases hcall with h | h
    · simp at h
      rcases h with rfl | rfl
      · exact Or.inl rfl
      · exact Or.inr (Or.inl rfl)
    · rw [resolveLineItems_trace] at h
      simp at h
      obtain ⟨i2, _, hceq⟩ := h
      exact Or.inr (Or.inr ⟨i2.sku, hceq.symm⟩)

/-- Witness for C8: the customer search finds nothing, the create call
returns customer "41", and the single line item's SKU "B2" has no
catalog match. -/
theorem claim8_no_rollback_witness :
    Call.createCustomer (mkNewCustomer w1Body) ∈ (createInvoiceHandler true w8Qbo w1Body).2 ∧
    (∀ d, Call.createInvoice d ∉ (createInvoiceHandler true w8Qbo w1Body).2) ∧
    (∀ call ∈ (createInvoiceHandler true w8Qbo w1Body).2,
      call = Call.findCustomers w1Body.company ∨
      call = Call.createCustomer (mkNewCustomer w1Body) ∨
      ∃ sku, call = Call.findItems sku) ∧
    ∃ b, (createInvoiceHandler true w8Qbo w1Body).1 = .status 500 b :=
  claim8_no_rollback_of_created_customer w8Qbo w1Body w8Customer (Or.inl rfl) rfl
    (fun i _ => ⟨none, rfl⟩) ⟨w1LineItem, by simp [w1Body], rfl⟩

end QB
